import Mathlib

/-!
Shallow embedding of `src/triton.py` (the Netuno batch driver).

Paths are modelled as lists of components; the directory listing that
`Path.iterdir()` yields is passed in as an explicit list (its order is the
iteration order).  Collaborator calls made by `main` (metadata extraction,
the two automator run calls, result parsing, export) are modelled as
functions supplied in an `Env`; each call the orchestrator makes is recorded
as an `Event` in a trace, in source order.  Python exceptions are modelled
by `Except PyError` / an `error` field; `float` durations are modelled as
rationals.
-/

namespace Triton

/-- A filesystem path, as its list of components (`pathlib.Path`). -/
abbrev PyPath := List String

/-- The `.parent` property of `pathlib.Path`: drops the last component. -/
def PyPath.parent (p : PyPath) : PyPath := p.dropLast

/-- The exceptions that can propagate out of the embedded code.
`osError` stands for the `OSError`/`FileNotFoundError` that
`subprocess.Popen` raises on an invalid executable path; `stopIteration`
for the `StopIteration` that `next()` raises on an exhausted iterator;
`keyError` for a missing `INITIAL_DATES` key; `statisticsError` for the
`StatisticsError` that `statistics.mean` raises on an empty sequence.
The remaining constructors are the error taxonomy of the collaborators;
`processLaunchError` exists only so that statements about its absence can
be written (no such exception exists in `src/triton.py`). -/
inductive PyError where
  | osError
  | stopIteration
  | keyError
  | statisticsError
  | unparsableFileNameError
  | automationError
  | simulationTimeoutError
  | resultParseError
  | exportWriteError
  | missingInputDataError
  | invalidNetunoExecutableError
  | invalidSourceDirectoryError
  | processLaunchError
deriving DecidableEq, Repr

/-- The (city, model, scenario) triple that `FileNameParser.get_metadata`
derives from a file name. -/
structure Metadata where
  city : String
  model : String
  scenario : String
deriving DecidableEq, Repr

/-- Structured records produced by `ResultParser.parse_results`; a black
box to the orchestrator. -/
abbrev ParsedRecords := List String

/-- One observable call made by `main`, recorded in source order:
`launched` for a successful `run_netuno`, `gotMetadata` for
`FileNameParser.get_metadata`, `ranFirst` for
`automator.run_first_simulation` (with the full keyword-argument parameter
mapping it receives), `ranNext` for `automator.run_simulation` (file and
start date only), `parsed` for `ResultParser(output_path).parse_results()`,
`saved` for `exporter.save_results` (with the exporter's root directory and
the key), and `terminated` for `netuno_process.terminate()`. -/
inductive Event where
  | launched (pid : Nat)
  | gotMetadata (file : PyPath)
  | ranFirst (file : PyPath) (start_date : String) (params : List (String × String))
  | ranNext (file : PyPath) (start_date : String)
  | parsed (output_path : PyPath)
  | saved (export_root : PyPath) (city model scenario : String)
  | terminated
deriving DecidableEq, Repr

/-- The collaborators `main` calls, and the outcome of each call.
`launch` is the outcome of `run_netuno` (a pid, or the `OSError` from
`Popen`); `initial_dates` is the `INITIAL_DATES` dictionary (`none` models
a `KeyError`); `iter_duration i` is the wall-clock duration that
`time.perf_counter()` measures for iteration `i` (iteration 0 is the first
file's iteration). -/
structure Env where
  launch : Except PyError Nat
  get_metadata : PyPath → Except PyError Metadata
  initial_dates : String → Option String
  run_first_simulation : PyPath → String → List (String × String) → Except PyError PyPath
  run_simulation : PyPath → String → Except PyError PyPath
  parse_results : PyPath → Except PyError ParsedRecords
  save_results : PyPath → String → String → String → ParsedRecords → Except PyError Unit
  iter_duration : Nat → ℚ

/-- The observable outcome of one execution of `main`: the trace of
collaborator calls, the `durations` list the loop accumulates, the first
iteration's separately logged duration, the mean the final log line reports
(`none` when that line was never reached or raised), and the exception that
escaped `main` (`none` on normal completion). -/
structure MainResult where
  trace : List Event
  durations : List ℚ
  first_duration : Option ℚ
  reported_mean : Option ℚ
  error : Option PyError
deriving DecidableEq, Repr

/-- The `for file in path_iterator:` loop of `main` (lines 91-101 of
`src/triton.py`): for each remaining file it extracts metadata, looks up
the start date, calls `run_simulation`, parses, exports, and appends the
iteration's duration.  Any failure aborts the loop with that error.
`i` is the index of the current iteration (the first file was iteration 0,
so the loop starts at 1). -/
def runLoop (env : Env) (export_root : PyPath) :
    List PyPath → Nat → List Event → List ℚ → List Event × List ℚ × Option PyError
  | [], _, tr, durs => (tr, durs, none)
  | file :: rest, i, tr, durs =>
    match env.get_metadata file with
    | .error e => (tr ++ [.gotMetadata file], durs, some e)
    | .ok md =>
      match env.initial_dates md.scenario with
      | none => (tr ++ [.gotMetadata file], durs, some .keyError)
      | some start_date =>
        match env.run_simulation file start_date with
        | .error e => (tr ++ [.gotMetadata file, .ranNext file start_date], durs, some e)
        | .ok output_path =>
          match env.parse_results output_path with
          | .error e =>
            (tr ++ [.gotMetadata file, .ranNext file start_date, .parsed output_path],
             durs, some e)
          | .ok records =>
            match env.save_results export_root md.city md.model md.scenario records with
            | .error e =>
              (tr ++ [.gotMetadata file, .ranNext file start_date, .parsed output_path,
                      .saved export_root md.city md.model md.scenario], durs, some e)
            | .ok _ =>
              runLoop env export_root rest (i + 1)
                (tr ++ [.gotMetadata file, .ranNext file start_date, .parsed output_path,
                        .saved export_root md.city md.model md.scenario])
                (durs ++ [env.iter_duration i])

/-- The `main` routine of `src/triton.py` (lines 72-108), line by line:
launch Netuno (`run_netuno`); build the `Exporter` on
`precipitation_dir_path.parent.parent`; take the first file with
`next(path_iterator)` (raising `StopIteration` when the directory is
empty); extract its metadata; look up `INITIAL_DATES[scenario]`; call
`run_first_simulation(first_file, date, **SIMULATION_PARAMETERS)`; parse
and export; log the first iteration's duration; run the loop over the
remaining files; log the summary, whose `mean(durations)` raises
`StatisticsError` when `durations` is empty; and finally call
`netuno_process.terminate()`.  There is no `try`/`finally`: any exception
propagates immediately, skipping everything after it, including the
`terminate()` call. -/
def main (env : Env) (simulation_parameters : List (String × String))
    (files : List PyPath) (precipitation_dir_path : PyPath) : MainResult :=
  match env.launch with
  | .error e => ⟨[], [], none, none, some e⟩
  | .ok pid =>
    match files with
    | [] => ⟨[.launched pid], [], none, none, some .stopIteration⟩
    | first_file :: rest =>
      match env.get_metadata first_file with
      | .error e => ⟨[.launched pid, .gotMetadata first_file], [], none, none, some e⟩
      | .ok md =>
        match env.initial_dates md.scenario with
        | none => ⟨[.launched pid, .gotMetadata first_file], [], none, none, some .keyError⟩
        | some start_date =>
          match env.run_first_simulation first_file start_date simulation_parameters with
          | .error e =>
            ⟨[.launched pid, .gotMetadata first_file,
              .ranFirst first_file start_date simulation_parameters],
             [], none, none, some e⟩
          | .ok output_path =>
            match env.parse_results output_path with
            | .error e =>
              ⟨[.launched pid, .gotMetadata first_file,
                .ranFirst first_file start_date simulation_parameters, .parsed output_path],
               [], none, none, some e⟩
            | .ok records =>
              match env.save_results (PyPath.parent (PyPath.parent precipitation_dir_path))
                  md.city md.model md.scenario records with
              | .error e =>
                ⟨[.launched pid, .gotMetadata first_file,
                  .ranFirst first_file start_date simulation_parameters, .parsed output_path,
                  .saved (PyPath.parent (PyPath.parent precipitation_dir_path)) md.city
                    md.model md.scenario],
                 [], none, none, some e⟩
              | .ok _ =>
                match runLoop env (PyPath.parent (PyPath.parent precipitation_dir_path)) rest 1
                    [.launched pid, .gotMetadata first_file,
                     .ranFirst first_file start_date simulation_parameters,
                     .parsed output_path,
                     .saved (PyPath.parent (PyPath.parent precipitation_dir_path)) md.city
                       md.model md.scenario] [] with
                | (tr, durs, some e) => ⟨tr, durs, some (env.iter_duration 0), none, some e⟩
                | (tr, durs, none) =>
                  if durs.isEmpty then
                    ⟨tr, durs, some (env.iter_duration 0), none, some .statisticsError⟩
                  else
                    ⟨tr ++ [.terminated], durs, some (env.iter_duration 0),
                     some (durs.sum / (durs.length : ℚ)), none⟩

/-- The outcome of the `subprocess.Popen(args=(path_to_netuno,))` call in
`run_netuno`: a process (pid plus whether it exits before the warm-up
interval elapses), or the `OSError` raised for an invalid executable
path. -/
structure Popen where
  pid : Nat
  exits_before_wait_elapses : Bool
deriving DecidableEq, Repr

/-- What the operating system does when `run_netuno` launches the
executable. -/
structure LaunchWorld where
  popen_result : Except PyError Popen
deriving Repr

/-- What `run_netuno` returns: the `Popen` handle, together with how many
seconds it slept before returning (the warm-up wait). -/
structure NetunoHandle where
  process : Popen
  slept_seconds : Nat
deriving DecidableEq, Repr

/-- The `run_netuno` function of `src/triton.py` (lines 19-37): calls
`subprocess.Popen` (whose failure, for an invalid executable path, is an
`OSError` that simply propagates), then sleeps `wait_after_start` seconds,
then returns the `Popen` handle.  Nothing inspects whether the process is
still alive: the handle is returned even if the process exited during the
sleep, and no `ProcessLaunchError` is ever raised. -/
def run_netuno (world : LaunchWorld) (wait_after_start : Nat) :
    Except PyError NetunoHandle :=
  match world.popen_result with
  | .error e => .error e
  | .ok p => .ok ⟨p, wait_after_start⟩

/-- Python `logging` severity constants. -/
def DEBUG : Nat := 10

/-- Python `logging` severity constant INFO. -/
def INFO : Nat := 20

/-- Python `logging` severity constant WARNING. -/
def WARNING : Nat := 30

/-- Python `logging` severity constant ERROR. -/
def ERROR : Nat := 40

/-- The log-level selection of `setup_logger` in `src/triton.py`
(lines 51-58); this value is set both on the logger and on its handler. -/
def setup_logger (quiet_count : Nat) (verbose : Bool) : Nat :=
  if verbose then DEBUG
  else if quiet_count = 1 then WARNING
  else if quiet_count ≥ 2 then ERROR
  else INFO

/-- The log-level selection as the specification words it: DEBUG whenever
verbose is set (verbose overrides quiet); otherwise WARNING for quiet
count exactly 1, ERROR for quiet count 2 or more, INFO for quiet count 0.
Written from the claim, to be compared with `setup_logger`. -/
def claimed_log_level (quiet_count : Nat) (verbose : Bool) : Nat :=
  if verbose then DEBUG
  else
    match quiet_count with
    | 0 => INFO
    | 1 => WARNING
    | _ => ERROR

/-- Modelled from the spec: `CommandLineArgsValidator.validate_arguments`
(in `agents/validators.py`, which is not under `src/`) raises
`MissingInputDataError` when the input directory contains no files; the
`__main__` block of `src/triton.py` catches exactly this exception from it
before ever invoking `main`.  Only the emptiness check is modelled here. -/
def validate_arguments (files : List PyPath) : Except PyError Unit :=
  if files.isEmpty then .error .missingInputDataError else .ok ()

/-- The `__main__` block of `src/triton.py` (lines 134-142): run
`validate_arguments`; on a validation error log it and never invoke
`main`; otherwise invoke `main`. -/
def triton_entry (env : Env) (simulation_parameters : List (String × String))
    (files : List PyPath) (precipitation_dir_path : PyPath) : MainResult :=
  match validate_arguments files with
  | .error e => ⟨[], [], none, none, some e⟩
  | .ok _ => main env simulation_parameters files precipitation_dir_path

/-- An environment in which every collaborator call succeeds, with the
successful outcomes given by the supplied functions: `md` for metadata
extraction, `start_date` for the `INITIAL_DATES` lookup, `out1`/`outn` for
the output locations the two run calls report, `recs` for parsing, and
`dur` for the measured iteration durations. -/
def mkOkEnv (pid : Nat) (md : PyPath → Metadata) (start_date : String → String)
    (out1 : PyPath → String → List (String × String) → PyPath)
    (outn : PyPath → String → PyPath) (recs : PyPath → ParsedRecords)
    (dur : Nat → ℚ) : Env where
  launch := .ok pid
  get_metadata := fun f => .ok (md f)
  initial_dates := fun s => some (start_date s)
  run_first_simulation := fun f d p => .ok (out1 f d p)
  run_simulation := fun f d => .ok (outn f d)
  parse_results := fun o => .ok (recs o)
  save_results := fun _ _ _ _ _ => .ok ()
  iter_duration := dur

/-- The trace the loop produces when every collaborator call succeeds. -/
def loopTrace (md : PyPath → Metadata) (start_date : String → String)
    (outn : PyPath → String → PyPath) (export_root : PyPath) : List PyPath → List Event
  | [] => []
  | file :: rest =>
    .gotMetadata file ::
      .ranNext file (start_date (md file).scenario) ::
      .parsed (outn file (start_date (md file).scenario)) ::
      .saved export_root (md file).city (md file).model (md file).scenario ::
      loopTrace md start_date outn export_root rest

/-- The durations the loop accumulates when every collaborator call
succeeds, starting at iteration index `i`. -/
def loopDurs (dur : Nat → ℚ) : List PyPath → Nat → List ℚ
  | [], _ => []
  | _ :: rest, i => dur i :: loopDurs dur rest (i + 1)

/-- Whether an event is a `run_first_simulation` call. -/
def Event.isRanFirst : Event → Bool
  | .ranFirst _ _ _ => true
  | _ => false

/-- Whether an event is a `run_simulation` call. -/
def Event.isRanNext : Event → Bool
  | .ranNext _ _ => true
  | _ => false

/-- Whether an event is a `terminate()` call. -/
def Event.isTerminated : Event → Bool
  | .terminated => true
  | _ => false

/-- Whether an event is one of the two Driver run calls. -/
def Event.isRunCall : Event → Bool
  | .ranFirst _ _ _ => true
  | .ranNext _ _ => true
  | _ => false

/-- The file of a `get_metadata` call, if the event is one. -/
def metaFileOf : Event → Option PyPath
  | .gotMetadata f => some f
  | _ => none

/-- The file of a run call, if the event is one. -/
def runFileOf : Event → Option PyPath
  | .ranFirst f _ _ => some f
  | .ranNext f _ => some f
  | _ => none

/-- The parameter mapping of a `run_first_simulation` call, if the event is
one. -/
def ranFirstParamsOf : Event → Option (List (String × String))
  | .ranFirst _ _ p => some p
  | _ => none

/-- The (file, start date) payload of a `run_simulation` call, if the event
is one. -/
def ranNextPayloadOf : Event → Option (PyPath × String)
  | .ranNext f d => some (f, d)
  | _ => none

/-- The (export root, city, model, scenario) of a `save_results` call, if
the event is one. -/
def savedEntryOf : Event → Option (PyPath × String × String × String)
  | .saved r c m s => some (r, c, m, s)
  | _ => none

/-- Number of `run_first_simulation` calls in a trace. -/
def countRanFirst (tr : List Event) : Nat := tr.countP Event.isRanFirst

/-- Number of `run_simulation` calls in a trace. -/
def countRanNext (tr : List Event) : Nat := tr.countP Event.isRanNext

/-- Number of `terminate()` calls in a trace. -/
def countTerminated (tr : List Event) : Nat := tr.countP Event.isTerminated

/-- The files passed to metadata extraction, in call order. -/
def metaFiles (tr : List Event) : List PyPath := tr.filterMap metaFileOf

/-- The files passed to the run calls, in call order. -/
def runFiles (tr : List Event) : List PyPath := tr.filterMap runFileOf

/-- The parameter mappings handed to `run_first_simulation`, in call
order. -/
def paramsApplied (tr : List Event) : List (List (String × String)) :=
  tr.filterMap ranFirstParamsOf

/-- The (file, start date) payloads handed to `run_simulation`, in call
order. -/
def ranNextPayloads (tr : List Event) : List (PyPath × String) :=
  tr.filterMap ranNextPayloadOf

/-- The (export root, city, model, scenario) tuples of the export calls, in
call order. -/
def savedEntries (tr : List Event) : List (PyPath × String × String × String) :=
  tr.filterMap savedEntryOf

/-- The subsequence of Driver run calls of a trace. -/
def runCalls (tr : List Event) : List Event := tr.filter Event.isRunCall

/-- A concrete duration clock: iteration 0 (the first file) takes 0
seconds, the three loop iterations take 2, 3 and 4 seconds. -/
def exDur : Nat → ℚ
  | 1 => 2
  | 2 => 3
  | 3 => 4
  | _ => 0

/-- A concrete all-success environment used for evaluations. -/
def exEnv : Env :=
  mkOkEnv 1 (fun _ => ⟨"CityA", "ModelB", "ScenarioC"⟩) (fun _ => "01/01/2000")
    (fun _ _ _ => ["out.txt"]) (fun _ _ => ["out.txt"]) (fun _ => ["record"]) exDur

/-- A concrete input directory listing with four files. -/
def exFiles : List PyPath := [["a.csv"], ["b.csv"], ["c.csv"], ["d.csv"]]

/-- A concrete precipitation directory path. -/
def exDir : PyPath := ["home", "data", "precipitation"]

/-- A concrete parameter mapping standing in for `SIMULATION_PARAMETERS`. -/
def exParams : List (String × String) := [("option", "value")]

/-- An environment identical to `exEnv` except that result parsing always
fails with `ResultParseError`. -/
def failParseEnv : Env :=
  { exEnv with parse_results := fun _ => .error .resultParseError }

/-- Projection of `mkOkEnv`: the launch outcome. -/
@[simp]
theorem mkOkEnv_launch (pid md start_date out1 outn recs dur) :
    (mkOkEnv pid md start_date out1 outn recs dur).launch = .ok pid := rfl

/-- Projection of `mkOkEnv`: metadata extraction. -/
@[simp]
theorem mkOkEnv_get_metadata (pid md start_date out1 outn recs dur f) :
    (mkOkEnv pid md start_date out1 outn recs dur).get_metadata f = .ok (md f) := rfl

/-- Projection of `mkOkEnv`: the date table lookup. -/
@[simp]
theorem mkOkEnv_initial_dates (pid md start_date out1 outn recs dur s) :
    (mkOkEnv pid md start_date out1 outn recs dur).initial_dates s =
      some (start_date s) := rfl

/-- Projection of `mkOkEnv`: the first run. -/
@[simp]
theorem mkOkEnv_run_first_simulation (pid md start_date out1 outn recs dur f d p) :
    (mkOkEnv pid md start_date out1 outn recs dur).run_first_simulation f d p =
      .ok (out1 f d p) := rfl

/-- Projection of `mkOkEnv`: a subsequent run. -/
@[simp]
theorem mkOkEnv_run_simulation (pid md start_date out1 outn recs dur f d) :
    (mkOkEnv pid md start_date out1 outn recs dur).run_simulation f d =
      .ok (outn f d) := rfl

/-- Projection of `mkOkEnv`: result parsing. -/
@[simp]
theorem mkOkEnv_parse_results (pid md start_date out1 outn recs dur o) :
    (mkOkEnv pid md start_date out1 outn recs dur).parse_results o = .ok (recs o) := rfl

/-- Projection of `mkOkEnv`: the export call. -/
@[simp]
theorem mkOkEnv_save_results (pid md start_date out1 outn recs dur r c m s x) :
    (mkOkEnv pid md start_date out1 outn recs dur).save_results r c m s x = .ok () := rfl

/-- Projection of `mkOkEnv`: the duration clock. -/
@[simp]
theorem mkOkEnv_iter_duration (pid md start_date out1 outn recs dur i) :
    (mkOkEnv pid md start_date out1 outn recs dur).iter_duration i = dur i := rfl

/-- When every collaborator call succeeds, the loop consumes all its files,
appending the corresponding events and one duration per file, and returns
no error. -/
theorem runLoop_mkOkEnv (pid : Nat) (md : PyPath → Metadata)
    (start_date : String → String)
    (out1 : PyPath → String → List (String × String) → PyPath)
    (outn : PyPath → String → PyPath) (recs : PyPath → ParsedRecords) (dur : Nat → ℚ)
    (export_root : PyPath) :
    ∀ (fs : List PyPath) (i : Nat) (tr : List Event) (durs : List ℚ),
      runLoop (mkOkEnv pid md start_date out1 outn recs dur) export_root fs i tr durs =
        (tr ++ loopTrace md start_date outn export_root fs,
         durs ++ loopDurs dur fs i, none) := by
  intro fs
  induction fs with
  | nil => intro i tr durs; simp [runLoop, loopTrace, loopDurs]
  | cons file rest ih =>
      intro i tr durs
      simp only [runLoop, mkOkEnv_get_metadata, mkOkEnv_initial_dates,
        mkOkEnv_run_simulation, mkOkEnv_parse_results, mkOkEnv_save_results,
        mkOkEnv_iter_duration]
      rw [ih]
      simp [loopTrace, loopDurs, List.append_assoc]

/-- The loop durations, written as a map over iteration indices. -/
theorem loopDurs_eq_range_map (dur : Nat → ℚ) (fs : List PyPath) :
    ∀ i, loopDurs dur fs i = (List.range fs.length).map (fun k => dur (i + k)) := by
  induction fs with
  | nil => intro i; simp [loopDurs]
  | cons f rest ih =>
      intro i
      simp only [loopDurs, List.length_cons, List.range_succ_eq_map, List.map_cons,
        List.map_map, ih (i + 1)]
      refine congrArg₂ _ (by simp) ?_
      refine List.map_congr_left ?_
      intro k _
      simp only [Function.comp_apply]
      refine congrArg _ (by omega)

/-- Full characterization of `main` in an all-success environment with at
least one input file: the trace is the launch, the first iteration's four
collaborator calls, the loop's events, and — only when there is at least
one further file — the terminate call; the durations are the loop's; the
first duration is reported separately; the mean is reported only when the
loop ran at least once, and with a single file the summary raises
`StatisticsError`. -/
theorem main_mkOkEnv_eq (pid : Nat) (md : PyPath → Metadata)
    (start_date : String → String)
    (out1 : PyPath → String → List (String × String) → PyPath)
    (outn : PyPath → String → PyPath) (recs : PyPath → ParsedRecords) (dur : Nat → ℚ)
    (params : List (String × String)) (first : PyPath) (rest : List PyPath)
    (dir : PyPath) :
    main (mkOkEnv pid md start_date out1 outn recs dur) params (first :: rest) dir =
      ⟨[.launched pid, .gotMetadata first,
        .ranFirst first (start_date (md first).scenario) params,
        .parsed (out1 first (start_date (md first).scenario) params),
        .saved (PyPath.parent (PyPath.parent dir)) (md first).city (md first).model
          (md first).scenario] ++
        loopTrace md start_date outn (PyPath.parent (PyPath.parent dir)) rest ++
        (if rest.isEmpty then [] else [.terminated]),
       loopDurs dur rest 1,
       some (dur 0),
       (if rest.isEmpty then none
        else some ((loopDurs dur rest 1).sum / ((loopDurs dur rest 1).length : ℚ))),
       (if rest.isEmpty then some .statisticsError else none)⟩ := by
  simp only [main, mkOkEnv_launch, mkOkEnv_get_metadata, mkOkEnv_initial_dates,
    mkOkEnv_run_first_simulation, mkOkEnv_parse_results, mkOkEnv_save_results,
    mkOkEnv_iter_duration]
  rw [runLoop_mkOkEnv]
  cases rest with
  | nil => simp [loopTrace, loopDurs]
  | cons g gs => simp [loopTrace, loopDurs, List.append_assoc]

/-- The loop never calls `run_first_simulation`. -/
theorem countP_isRanFirst_loopTrace (md start_date outn export_root) :
    ∀ fs, (loopTrace md start_date outn export_root fs).countP Event.isRanFirst = 0 := by
  intro fs
  induction fs with
  | nil => simp [loopTrace]
  | cons f rest ih =>
      simpa [loopTrace, List.countP_cons, Event.isRanFirst] using ih

/-- The loop calls `run_simulation` once per file. -/
theorem countP_isRanNext_loopTrace (md start_date outn export_root) :
    ∀ fs, (loopTrace md start_date outn export_root fs).countP Event.isRanNext =
      fs.length := by
  intro fs
  induction fs with
  | nil => simp [loopTrace]
  | cons f rest ih =>
      simp [loopTrace, List.countP_cons, Event.isRanNext] at ih ⊢
      omega

/-- The loop passes exactly its files to metadata extraction, in order. -/
theorem filterMap_metaFileOf_loopTrace (md start_date outn export_root) :
    ∀ fs, (loopTrace md start_date outn export_root fs).filterMap metaFileOf = fs := by
  intro fs
  induction fs with
  | nil => simp [loopTrace]
  | cons f rest ih =>
      simpa [loopTrace, metaFileOf] using ih

/-- The loop passes exactly its files to run calls, in order. -/
theorem filterMap_runFileOf_loopTrace (md start_date outn export_root) :
    ∀ fs, (loopTrace md start_date outn export_root fs).filterMap runFileOf = fs := by
  intro fs
  induction fs with
  | nil => simp [loopTrace]
  | cons f rest ih =>
      simpa [loopTrace, runFileOf] using ih

/-- The loop never hands a parameter mapping to any run call. -/
theorem filterMap_ranFirstParamsOf_loopTrace (md start_date outn export_root) :
    ∀ fs, (loopTrace md start_date outn export_root fs).filterMap ranFirstParamsOf
      = [] := by
  intro fs
  induction fs with
  | nil => simp [loopTrace]
  | cons f rest ih =>
      simpa [loopTrace, ranFirstParamsOf] using ih

/-- The loop's `run_simulation` calls carry exactly (file, start date), one
per file in order. -/
theorem filterMap_ranNextPayloadOf_loopTrace (md start_date outn export_root) :
    ∀ fs, (loopTrace md start_date outn export_root fs).filterMap ranNextPayloadOf =
      fs.map (fun f => (f, start_date (md f).scenario)) := by
  intro fs
  induction fs with
  | nil => simp [loopTrace]
  | cons f rest ih =>
      simpa [loopTrace, ranNextPayloadOf] using ih

/-- The loop's export calls all use the supplied export root and the
per-file metadata key, one per file in order. -/
theorem filterMap_savedEntryOf_loopTrace (md start_date outn export_root) :
    ∀ fs, (loopTrace md start_date outn export_root fs).filterMap savedEntryOf =
      fs.map (fun f => (export_root, (md f).city, (md f).model, (md f).scenario)) := by
  intro fs
  induction fs with
  | nil => simp [loopTrace]
  | cons f rest ih =>
      simpa [loopTrace, savedEntryOf] using ih

/-- The run calls of the loop, as a list: one `run_simulation` per file in
order. -/
theorem filter_isRunCall_loopTrace (md start_date outn export_root) :
    ∀ fs, (loopTrace md start_date outn export_root fs).filter Event.isRunCall =
      fs.map (fun f => .ranNext f (start_date (md f).scenario)) := by
  intro fs
  induction fs with
  | nil => simp [loopTrace]
  | cons f rest ih =>
      simpa [loopTrace, Event.isRunCall] using ih

/-- In any environment, the loop never emits a `terminate()` call: whatever
it returns, the count of terminate events equals that of the trace it was
handed. -/
theorem countTerminated_runLoop (env : Env) (export_root : PyPath) :
    ∀ (fs : List PyPath) (i : Nat) (tr : List Event) (durs : List ℚ),
      countTerminated (runLoop env export_root fs i tr durs).1 = countTerminated tr := by
  intro fs
  induction fs with
  | nil => intro i tr durs; simp [runLoop]
  | cons f rest ih =>
      intro i tr durs
      simp only [runLoop]
      cases hm : env.get_metadata f with
      | error e => simp [hm, countTerminated, List.countP_append, Event.isTerminated]
      | ok md =>
        cases hd : env.initial_dates md.scenario with
        | none => simp [hm, hd, countTerminated, List.countP_append, Event.isTerminated]
        | some d =>
          cases hr : env.run_simulation f d with
          | error e =>
              simp [hm, hd, hr, countTerminated, List.countP_append, Event.isTerminated]
          | ok o =>
            cases hp : env.parse_results o with
            | error e =>
                simp [hm, hd, hr, hp, countTerminated, List.countP_append,
                  Event.isTerminated]
            | ok records =>
              cases hs : env.save_results export_root md.city md.model md.scenario records with
              | error e =>
                  simp [hm, hd, hr, hp, hs, countTerminated, List.countP_append,
                    Event.isTerminated]
              | ok u =>
                simp only [hm, hd, hr, hp, hs]
                rw [ih]
                simp [countTerminated, List.countP_append, Event.isTerminated]

/-- C1: for every input directory yielding N ≥ 1 files, an execution of
`main` in which every collaborator call succeeds calls
`run_first_simulation` exactly once — on the first file in iteration
order — and `run_simulation` exactly N − 1 times, once per remaining file
in order. -/
theorem run_call_counts (pid : Nat) (md : PyPath → Metadata)
    (start_date : String → String)
    (out1 : PyPath → String → List (String × String) → PyPath)
    (outn : PyPath → String → PyPath) (recs : PyPath → ParsedRecords) (dur : Nat → ℚ)
    (params : List (String × String)) (first : PyPath) (rest : List PyPath)
    (dir : PyPath) :
    countRanFirst
        (main (mkOkEnv pid md start_date out1 outn recs dur) params (first :: rest)
          dir).trace = 1 ∧
    countRanNext
        (main (mkOkEnv pid md start_date out1 outn recs dur) params (first :: rest)
          dir).trace = rest.length ∧
    runCalls
        (main (mkOkEnv pid md start_date out1 outn recs dur) params (first :: rest)
          dir).trace =
      .ranFirst first (start_date (md first).scenario) params ::
        rest.map (fun f => .ranNext f (start_date (md f).scenario)) := by
  rcases rest with _ | ⟨g, gs⟩ <;> rw [main_mkOkEnv_eq] <;>
    simp [countRanFirst, countRanNext, runCalls, List.countP_append, List.filter_append,
      Event.isRanFirst, Event.isRanNext, Event.isRunCall,
      countP_isRanFirst_loopTrace, countP_isRanNext_loopTrace, filter_isRunCall_loopTrace]

/-- C10: `main` processes exactly the entries the directory iteration
yields, in that order and with no filtering or sorting: every entry —
the file names being arbitrary, in particular not necessarily ending in
`.csv` — is passed to metadata extraction and to a run call, and the first
run's file is the first entry yielded. -/
theorem all_entries_processed_in_order (pid : Nat) (md : PyPath → Metadata)
    (start_date : String → String)
    (out1 : PyPath → String → List (String × String) → PyPath)
    (outn : PyPath → String → PyPath) (recs : PyPath → ParsedRecords) (dur : Nat → ℚ)
    (params : List (String × String)) (first : PyPath) (rest : List PyPath)
    (dir : PyPath) :
    metaFiles
        (main (mkOkEnv pid md start_date out1 outn recs dur) params (first :: rest)
          dir).trace = first :: rest ∧
    runFiles
        (main (mkOkEnv pid md start_date out1 outn recs dur) params (first :: rest)
          dir).trace = first :: rest ∧
    (runFiles
        (main (mkOkEnv pid md start_date out1 outn recs dur) params (first :: rest)
          dir).trace).head? = some first := by
  rcases rest with _ | ⟨g, gs⟩ <;> rw [main_mkOkEnv_eq] <;>
    simp [metaFiles, runFiles, List.filterMap_append, metaFileOf, runFileOf,
      filterMap_metaFileOf_loopTrace, filterMap_runFileOf_loopTrace]

/-- C6: the full parameter mapping is handed over exactly once per
execution, as the keyword arguments of the single `run_first_simulation`
call, which is the first run call made; every `run_simulation` call
receives only the input file and a start date, never a parameter
mapping. -/
theorem parameters_applied_only_at_first_run (pid : Nat) (md : PyPath → Metadata)
    (start_date : String → String)
    (out1 : PyPath → String → List (String × String) → PyPath)
    (outn : PyPath → String → PyPath) (recs : PyPath → ParsedRecords) (dur : Nat → ℚ)
    (params : List (String × String)) (first : PyPath) (rest : List PyPath)
    (dir : PyPath) :
    paramsApplied
        (main (mkOkEnv pid md start_date out1 outn recs dur) params (first :: rest)
          dir).trace = [params] ∧
    (runCalls
        (main (mkOkEnv pid md start_date out1 outn recs dur) params (first :: rest)
          dir).trace).head? =
      some (.ranFirst first (start_date (md first).scenario) params) ∧
    ranNextPayloads
        (main (mkOkEnv pid md start_date out1 outn recs dur) params (first :: rest)
          dir).trace =
      rest.map (fun f => (f, start_date (md f).scenario)) := by
  rcases rest with _ | ⟨g, gs⟩ <;> rw [main_mkOkEnv_eq] <;>
    simp [paramsApplied, runCalls, ranNextPayloads, List.filterMap_append,
      List.filter_append, ranFirstParamsOf, ranNextPayloadOf, Event.isRunCall,
      filterMap_ranFirstParamsOf_loopTrace, filterMap_ranNextPayloadOf_loopTrace,
      filter_isRunCall_loopTrace]

/-- C7: every export call of an execution of `main` uses, as the export
destination root, the grandparent of the precipitation input directory —
`precipitation_dir_path.parent.parent`, not an independently configured
path — and is keyed by the (city, model, scenario) triple extracted from
the file of that iteration. -/
theorem exportRoot_is_input_grandparent (pid : Nat) (md : PyPath → Metadata)
    (start_date : String → String)
    (out1 : PyPath → String → List (String × String) → PyPath)
    (outn : PyPath → String → PyPath) (recs : PyPath → ParsedRecords) (dur : Nat → ℚ)
    (params : List (String × String)) (first : PyPath) (rest : List PyPath)
    (dir : PyPath) :
    savedEntries
        (main (mkOkEnv pid md start_date out1 outn recs dur) params (first :: rest)
          dir).trace =
      (first :: rest).map (fun f =>
        (PyPath.parent (PyPath.parent dir), (md f).city, (md f).model,
          (md f).scenario)) := by
  rcases rest with _ | ⟨g, gs⟩ <;> rw [main_mkOkEnv_eq] <;>
    simp [savedEntries, List.filterMap_append, savedEntryOf,
      filterMap_savedEntryOf_loopTrace]

/-- C4: after a successful execution with N ≥ 2 files, the mean `main`
reports is the arithmetic mean of exactly the non-first iterations'
durations — the `durations` list holds the durations of iterations
1 .. N − 1 only, while iteration 0's duration is reported separately — and
in particular, when the non-first durations are [2, 3, 4] the reported
mean is 3. -/
theorem mean_over_nonfirst_durations (pid : Nat) (md : PyPath → Metadata)
    (start_date : String → String)
    (out1 : PyPath → String → List (String × String) → PyPath)
    (outn : PyPath → String → PyPath) (recs : PyPath → ParsedRecords) (dur : Nat → ℚ)
    (params : List (String × String)) (first second : PyPath) (later : List PyPath)
    (dir : PyPath) :
    (main (mkOkEnv pid md start_date out1 outn recs dur) params
        (first :: second :: later) dir).durations =
      (List.range (second :: later).length).map (fun k => dur (1 + k)) ∧
    (main (mkOkEnv pid md start_date out1 outn recs dur) params
        (first :: second :: later) dir).first_duration = some (dur 0) ∧
    (main (mkOkEnv pid md start_date out1 outn recs dur) params
        (first :: second :: later) dir).reported_mean =
      some
        ((main (mkOkEnv pid md start_date out1 outn recs dur) params
            (first :: second :: later) dir).durations.sum /
          ((main (mkOkEnv pid md start_date out1 outn recs dur) params
              (first :: second :: later) dir).durations.length : ℚ)) ∧
    (main exEnv exParams exFiles exDir).durations = [2, 3, 4] ∧
    (main exEnv exParams exFiles exDir).reported_mean = some 3 := by
  rw [main_mkOkEnv_eq, loopDurs_eq_range_map]
  refine ⟨rfl, rfl, by simp, ?_, ?_⟩
  · simp [exEnv, exFiles, exDir, exParams, main_mkOkEnv_eq, loopDurs, exDur]
  · norm_num [exEnv, exFiles, exDir, exParams, main_mkOkEnv_eq, loopDurs, exDur]

/-- C9: the logger's effective level is DEBUG whenever the verbose flag is
set (verbose overrides any quiet count); otherwise it is WARNING for quiet
count exactly 1, ERROR for quiet count 2 or more, and INFO for quiet
count 0. -/
theorem log_level_selection (quiet_count : Nat) (verbose : Bool) :
    setup_logger quiet_count verbose = claimed_log_level quiet_count verbose := by
  cases verbose with
  | true => simp [setup_logger, claimed_log_level]
  | false =>
      rcases quiet_count with _ | _ | q
      · simp [setup_logger, claimed_log_level]
      · simp [setup_logger, claimed_log_level]
      · have h1 : ¬(q + 2 = 1) := by omega
        have h2 : q + 2 ≥ 2 := by omega
        simp [setup_logger, claimed_log_level, h1, h2]

/-- C2 (amended): in any environment, `netuno_process.terminate()` is
invoked exactly once if and only if `main` completes without any exception;
on every failing path — launch failure, but also any failure after a
successful launch, including the `StatisticsError` the summary raises when
there are no non-first iterations — it is never invoked. -/
theorem terminate_called_iff_clean_completion (env : Env)
    (params : List (String × String)) (files : List PyPath) (dir : PyPath) :
    countTerminated (main env params files dir).trace =
      if (main env params files dir).error = none then 1 else 0 := by
  cases hl : env.launch with
  | error e => simp [main, hl, countTerminated]
  | ok pid =>
    cases files with
    | nil => simp [main, hl, countTerminated, Event.isTerminated]
    | cons first rest =>
      simp only [main, hl]
      cases hm : env.get_metadata first with
      | error e => simp [hm, countTerminated, Event.isTerminated]
      | ok md =>
        cases hd : env.initial_dates md.scenario with
        | none => simp [hm, hd, countTerminated, Event.isTerminated]
        | some d =>
          cases hr : env.run_first_simulation first d params with
          | error e => simp [hm, hd, hr, countTerminated, Event.isTerminated]
          | ok o =>
            cases hp : env.parse_results o with
            | error e => simp [hm, hd, hr, hp, countTerminated, Event.isTerminated]
            | ok records =>
              cases hs : env.save_results (PyPath.parent (PyPath.parent dir)) md.city
                  md.model md.scenario records with
              | error e =>
                  simp [hm, hd, hr, hp, hs, countTerminated, Event.isTerminated]
              | ok u =>
                simp only [hm, hd, hr, hp, hs]
                have h0 : countTerminated
                    [Event.launched pid, Event.gotMetadata first,
                     Event.ranFirst first d params, Event.parsed o,
                     Event.saved (PyPath.parent (PyPath.parent dir)) md.city md.model
                       md.scenario] = 0 := by
                  simp [countTerminated, Event.isTerminated]
                have hloop := countTerminated_runLoop env
                  (PyPath.parent (PyPath.parent dir)) rest 1
                  [Event.launched pid, Event.gotMetadata first,
                   Event.ranFirst first d params, Event.parsed o,
                   Event.saved (PyPath.parent (PyPath.parent dir)) md.city md.model
                     md.scenario] []
                rw [h0] at hloop
                rcases hres : runLoop env (PyPath.parent (PyPath.parent dir)) rest 1
                  [Event.launched pid, Event.gotMetadata first,
                   Event.ranFirst first d params, Event.parsed o,
                   Event.saved (PyPath.parent (PyPath.parent dir)) md.city md.model
                     md.scenario] [] with ⟨tr, durs, err⟩
                rw [hres] at hloop
                simp only at hloop
                cases err with
                | some e => simpa using hloop
                | none =>
                    cases durs with
                    | nil => simpa using hloop
                    | cons q qs =>
                        simp [countTerminated, List.countP_append,
                          Event.isTerminated] at hloop ⊢
                        exact hloop

/-- C2 counterexample: an execution in which the launch succeeded (the
trace starts with the launch event) but result parsing failed: `main` ends
with `ResultParseError` and `terminate()` is never invoked, so terminate is
not called on every exit path after a successful launch. -/
theorem terminate_skipped_on_parse_failure :
    (main failParseEnv exParams [["a.csv"]] exDir).error =
      some .resultParseError ∧
    (main failParseEnv exParams [["a.csv"]] exDir).trace.head? =
      some (.launched 1) ∧
    countTerminated (main failParseEnv exParams [["a.csv"]] exDir).trace = 0 := by
  decide

/-- C3 counterexample: on an empty input directory, `main` itself (the
process already launched) fails with the `StopIteration` that
`next(path_iterator)` raises, not with `MissingInputDataError`; no run
call is made. -/
theorem empty_dir_raises_stop_iteration :
    (main exEnv exParams [] exDir).error = some .stopIteration ∧
    (main exEnv exParams [] exDir).trace = [.launched 1] ∧
    countRanFirst (main exEnv exParams [] exDir).trace = 0 ∧
    countRanNext (main exEnv exParams [] exDir).trace = 0 := by
  decide

/-- C3 (amended): the emptiness check lives in argument validation, before
`main`: for an empty input directory the program fails with
`MissingInputDataError` without ever invoking `main`, so no Driver run
call is made; `main` itself, were it entered on an empty directory, would
fail with `StopIteration` from `next()` — likewise without any run
call. -/
theorem empty_dir_fails_before_any_run (env : Env) (pid : Nat)
    (params : List (String × String)) (dir : PyPath) :
    (triton_entry env params [] dir).error = some .missingInputDataError ∧
    countRanFirst (triton_entry env params [] dir).trace = 0 ∧
    countRanNext (triton_entry env params [] dir).trace = 0 ∧
    (main { env with launch := .ok pid } params [] dir).error =
      some .stopIteration ∧
    countRanFirst (main { env with launch := .ok pid } params [] dir).trace = 0 ∧
    countRanNext (main { env with launch := .ok pid } params [] dir).trace = 0 := by
  refine ⟨rfl, rfl, rfl, rfl, rfl, rfl⟩

/-- C5: with exactly one input file there are zero non-first iterations,
and the summary line itself fails: `statistics.mean` of the empty
`durations` list raises `StatisticsError`, so `main` reports no mean and
— the error propagating — never even reaches `terminate()`; the
orchestrator does not report a no-subsequent-iterations summary. -/
theorem single_file_summary_raises_statistics_error :
    (main exEnv exParams [["a.csv"]] exDir).error = some .statisticsError ∧
    (main exEnv exParams [["a.csv"]] exDir).reported_mean = none ∧
    countRanFirst (main exEnv exParams [["a.csv"]] exDir).trace = 1 ∧
    countRanNext (main exEnv exParams [["a.csv"]] exDir).trace = 0 ∧
    countTerminated (main exEnv exParams [["a.csv"]] exDir).trace = 0 := by
  decide

/-- C8 counterexample: a process that exits before the warm-up interval
elapses is not detected — `run_netuno` still returns the handle as a
success — and an invalid executable path surfaces as the `OSError` that
`subprocess.Popen` raises, not as any `ProcessLaunchError`. -/
theorem run_netuno_no_launch_failure_detection :
    run_netuno ⟨.ok ⟨3, true⟩⟩ 5 = .ok ⟨⟨3, true⟩, 5⟩ ∧
    run_netuno ⟨.error .osError⟩ 5 = .error .osError := by
  exact ⟨rfl, rfl⟩

/-- C8 (amended): `run_netuno` sleeps for the fixed warm-up interval and
then returns the `Popen` handle unconditionally once `subprocess.Popen`
returned — whether or not the process exits before the interval elapses —
and when the executable path is invalid the `OSError` from `Popen`
propagates unchanged; no `ProcessLaunchError` is raised anywhere. -/
theorem run_netuno_blocks_and_returns_handle (p : Popen) (e : PyError)
    (wait_after_start : Nat) :
    run_netuno ⟨.ok p⟩ wait_after_start = .ok ⟨p, wait_after_start⟩ ∧
    run_netuno ⟨.error e⟩ wait_after_start = .error e := by
  exact ⟨rfl, rfl⟩

end Triton
